import Mathlib

/-!
Shallow embedding of the SyncMate backend core: the onboarding workflow
(login-or-create and register), the authentication verifier, and the
project service (analytics and update).  Document ids are modelled as
natural numbers allocated from a per-store counter; the document database
is a record of lists; a transaction works on a running copy of the store
and either commits (the copy becomes the store) or aborts (the original
store is kept).
-/

/-- Provider enum from account-provider.enum.js. -/
inductive Provider where
  | GOOGLE
  | GITHUB
  | FACEBOOK
  | EMAIL
deriving DecidableEq, Repr

/-- Modelled from the spec: role names (role.enum.js is not under src/); the
spec lists the exhaustive role names OWNER, ADMIN, MEMBER. -/
inductive RoleName where
  | OWNER
  | ADMIN
  | MEMBER
deriving DecidableEq, Repr

/-- Task status enum from task.enum.js. -/
inductive TaskStatus where
  | BACKLOG
  | TODO
  | IN_PROGRESS
  | IN_REVIEW
  | DONE
deriving DecidableEq, Repr

/-- Task priority enum from task.enum.js. -/
inductive TaskPriority where
  | LOW
  | MEDIUM
  | HIGH
deriving DecidableEq, Repr

/-- Modelled from the spec: error kinds of utils/appError.js (not under
src/); the spec names BadRequest, NotFound and Unauthorized, each carrying
a message. -/
inductive AppError where
  | badRequest (msg : String)
  | notFound (msg : String)
  | unauthorized (msg : String)
deriving DecidableEq, Repr

/-- The user-visible message carried by an error. -/
def AppError.message : AppError → String
  | .badRequest m => m
  | .notFound m => m
  | .unauthorized m => m

/-- Modelled from the spec: utils/bcrypt.js is not under src/; the spec
gives the collaborator interface hash(plaintext) to hash-string.  The hash
is modelled as an injective tagging so that hashing is observable and a
double hash differs from a single one. -/
def hashValue (p : String) : String := "bcrypt$" ++ p

/-- Modelled from the spec: utils/bcrypt.js is not under src/; the spec
gives compare(plaintext, hash) to bool, true exactly when the hash is the
hash of the plaintext. -/
def compareValue (v : String) (h : String) : Bool := h == hashValue v

/-- Leading and trailing whitespace removed, the trim setter of the
schema string paths. -/
def trimString (s : String) : String :=
  ⟨((s.data.dropWhile Char.isWhitespace).reverse.dropWhile Char.isWhitespace).reverse⟩

/-- Every character lowercased, the lowercase setter of the email path. -/
def toLowerString (s : String) : String := ⟨s.data.map Char.toLower⟩

/-- The email setters of userSchema (user.model.js lines 27-33): trim and
lowercase are applied when the email path is assigned, and mongoose also
runs them on query filter values. -/
def normalizeEmail (e : String) : String := toLowerString (trimString e)

/-- Javascript truthiness of an optional string value: absent, null and
the empty string are falsy. -/
def truthy : Option String → Bool
  | some s => s != ""
  | none => false

/-- A User document (user.model.js).  passwordDirty models the mongoose
isModified flag for the password path: set when the path is assigned,
cleared by save. -/
structure UserDoc where
  id : Nat
  email : String
  name : String
  password : Option String
  profilePicture : Option String
  currentWorkspace : Option Nat
  passwordDirty : Bool
deriving DecidableEq, Repr

/-- The pre-save hook of userSchema (user.model.js lines 52-59): when the
password path is modified and the password is truthy it is replaced by its
hash; otherwise it is left as it is.  Saving clears the dirty flag. -/
def UserDoc.applyPreSave (u : UserDoc) : UserDoc :=
  if u.passwordDirty then
    match u.password with
    | some p =>
        if p == "" then { u with passwordDirty := false }
        else { u with password := some (hashValue p), passwordDirty := false }
    | none => { u with passwordDirty := false }
  else { u with passwordDirty := false }

/-- comparePassword method of userSchema (user.model.js lines 69-71):
compares a candidate value against the stored hash. -/
def UserDoc.comparePassword (u : UserDoc) (v : String) : Bool :=
  match u.password with
  | some h => compareValue v h
  | none => false

/-- A User object with the password field removed, the return shape of
omitPassword (user.model.js lines 62-66). -/
structure UserView where
  id : Nat
  email : String
  name : String
  profilePicture : Option String
  currentWorkspace : Option Nat
deriving DecidableEq, Repr

/-- omitPassword method of userSchema: the user object without its
password field. -/
def UserDoc.omitPassword (u : UserDoc) : UserView :=
  { id := u.id, email := u.email, name := u.name,
    profilePicture := u.profilePicture, currentWorkspace := u.currentWorkspace }

/-- Modelled from the spec: account.model.js is not under src/; the spec
data model gives Account the attributes id, user-id, provider and
provider-id. -/
structure Account where
  id : Nat
  userId : Nat
  provider : Provider
  providerId : String
deriving DecidableEq, Repr

/-- Modelled from the spec: utils/uuid.js is not under src/; the spec says
the invite-code generator produces a unique opaque token, modelled as a
tag of the fresh workspace id. -/
def generateInviteCode (n : Nat) : String := "invite-" ++ toString n

/-- A Workspace document (workspace.model.js). -/
structure Workspace where
  id : Nat
  name : String
  description : Option String
  owner : Nat
  inviteCode : String
deriving DecidableEq, Repr

/-- A Role document (roles-permission.model.js): a unique name and a
permission list seeded from the static mapping. -/
structure Role where
  id : Nat
  name : RoleName
  permissions : List String
deriving DecidableEq, Repr

/-- A Member document (member.model.js): the join of user, workspace and
role. -/
structure Member where
  id : Nat
  userId : Nat
  workspaceId : Nat
  role : Nat
  joinedAt : Nat
deriving DecidableEq, Repr

/-- The document store for the identity domain, with a counter from which
fresh ids are allocated. -/
structure Store where
  users : List UserDoc
  accounts : List Account
  workspaces : List Workspace
  members : List Member
  roles : List Role
  nextId : Nat
deriving DecidableEq, Repr

/-- A mongoose client session; endCount counts how often endSession has
been called on it. -/
structure Session where
  endCount : Nat
deriving DecidableEq, Repr

/-- session.endSession(). -/
def Session.endSession (x : Session) : Session := { endCount := x.endCount + 1 }

/-- UserModel.findOne with an email filter; mongoose runs the schema
setters on the filter value. -/
def findUserByEmail (s : Store) (email : String) : Option UserDoc :=
  s.users.find? (fun u => u.email == normalizeEmail email)

/-- RoleModel.findOne with a name filter. -/
def findRoleByName (s : Store) (n : RoleName) : Option Role :=
  s.roles.find? (fun r => r.name == n)

/-- The input object of loginOrCreateAccountService; now stands for the
clock read by new Date(). -/
structure OAuthData where
  provider : Provider
  providerId : String
  displayName : String
  email : String
  picture : Option String
  now : Nat
deriving DecidableEq, Repr

/-- The transactional body of loginOrCreateAccountService (part_000 lines
34-78): look the user up by email; when absent create the user, the
account, the default workspace, resolve the OWNER role, create the owner
membership, and point the user at the new workspace. -/
def loginOrCreateBody (d : OAuthData) (s : Store) : Except AppError (UserDoc × Store) :=
  match findUserByEmail s d.email with
  | some user => .ok (user, s)
  | none =>
    let uid := s.nextId
    let user0 : UserDoc :=
      { id := uid, email := normalizeEmail d.email, name := trimString d.displayName,
        password := none,
        profilePicture := if truthy d.picture then d.picture else none,
        currentWorkspace := none, passwordDirty := false }
    let user1 := user0.applyPreSave
    let s2 : Store := { s with users := s.users ++ [user1], nextId := s.nextId + 1 }
    let aid := s2.nextId
    let account : Account :=
      { id := aid, userId := uid, provider := d.provider, providerId := d.providerId }
    let s3 : Store := { s2 with accounts := s2.accounts ++ [account], nextId := s2.nextId + 1 }
    let wid := s3.nextId
    let ws : Workspace :=
      { id := wid, name := "My Workspace",
        description := some ("Workspace created for " ++ user0.name),
        owner := uid, inviteCode := generateInviteCode wid }
    let s4 : Store := { s3 with workspaces := s3.workspaces ++ [ws], nextId := s3.nextId + 1 }
    match findRoleByName s4 RoleName.OWNER with
    | none => .error (.notFound "Owner role not found")
    | some ownerRole =>
      let mid := s4.nextId
      let mem : Member :=
        { id := mid, userId := uid, workspaceId := wid, role := ownerRole.id,
          joinedAt := d.now }
      let s5 : Store := { s4 with members := s4.members ++ [mem], nextId := s4.nextId + 1 }
      let user2 := ({ user1 with currentWorkspace := some wid } : UserDoc).applyPreSave
      let s6 : Store := { s5 with users := s5.users.map (fun u => if u.id == uid then user2 else u) }
      .ok (user2, s6)

/-- loginOrCreateAccountService (part_000 lines 25-92).  The try block
commits and calls endSession; the catch block aborts, calls endSession and
rethrows; the finally block calls endSession once more on every path. -/
def loginOrCreateAccountService (d : OAuthData) (s : Store) :
    Except AppError UserDoc × Store × Session :=
  let sess : Session := { endCount := 0 }
  match loginOrCreateBody d s with
  | .ok (u, s2) =>
      let sessTry := sess.endSession
      let sessFin := sessTry.endSession
      (.ok u, s2, sessFin)
  | .error e =>
      let sessCatch := sess.endSession
      let sessFin := sessCatch.endSession
      (.error e, s, sessFin)

/-- The transactional body of registerUserService (part_000 lines 106-162):
reject an already registered email, otherwise run the creation sequence
with provider EMAIL, provider-id the email, and the password stored
through the hashing hook. -/
def registerBody (email name password : String) (now : Nat) (s : Store) :
    Except AppError ((Nat × Nat) × Store) :=
  match findUserByEmail s email with
  | some _ => .error (.badRequest "Email already exists")
  | none =>
    let uid := s.nextId
    let user0 : UserDoc :=
      { id := uid, email := normalizeEmail email, name := trimString name,
        password := some password, profilePicture := none,
        currentWorkspace := none, passwordDirty := true }
    let user1 := user0.applyPreSave
    let s2 : Store := { s with users := s.users ++ [user1], nextId := s.nextId + 1 }
    let aid := s2.nextId
    let account : Account :=
      { id := aid, userId := uid, provider := Provider.EMAIL, providerId := email }
    let s3 : Store := { s2 with accounts := s2.accounts ++ [account], nextId := s2.nextId + 1 }
    let wid := s3.nextId
    let ws : Workspace :=
      { id := wid, name := "My Workspace",
        description := some ("Workspace created for " ++ user0.name),
        owner := uid, inviteCode := generateInviteCode wid }
    let s4 : Store := { s3 with workspaces := s3.workspaces ++ [ws], nextId := s3.nextId + 1 }
    match findRoleByName s4 RoleName.OWNER with
    | none => .error (.notFound "Owner role not found")
    | some ownerRole =>
      let mid := s4.nextId
      let mem : Member :=
        { id := mid, userId := uid, workspaceId := wid, role := ownerRole.id,
          joinedAt := now }
      let s5 : Store := { s4 with members := s4.members ++ [mem], nextId := s4.nextId + 1 }
      let user2 := ({ user1 with currentWorkspace := some wid } : UserDoc).applyPreSave
      let s6 : Store := { s5 with users := s5.users.map (fun u => if u.id == uid then user2 else u) }
      .ok ((uid, wid), s6)

/-- registerUserService (part_000 lines 102-168).  The try block commits
and calls endSession; the catch block aborts, calls endSession and
rethrows; there is no finally block. -/
def registerUserService (email name password : String) (now : Nat) (s : Store) :
    Except AppError (Nat × Nat) × Store × Session :=
  let sess : Session := { endCount := 0 }
  match registerBody email name password now s with
  | .ok (ids, s2) => (.ok ids, s2, sess.endSession)
  | .error e => (.error e, s, sess.endSession)

/-- verifyUserService (part_000 lines 178-196): look the account up by
provider and provider-id, load its user, compare the password, and return
the user without the password field. -/
def verifyUserService (email password : String) (provider : Provider) (s : Store) :
    Except AppError UserView :=
  match s.accounts.find? (fun a => a.provider == provider && a.providerId == email) with
  | none => .error (.notFound "Invalid email or password")
  | some account =>
    match s.users.find? (fun u => u.id == account.userId) with
    | none => .error (.notFound "User not found for the given account")
    | some user =>
      if user.comparePassword password then .ok user.omitPassword
      else .error (.unauthorized "Invalid email or password")

/-- Modelled from the spec: project.model.js is not under src/; the spec
data model gives Project the attributes id, workspace-id, name,
description, emoji and created-by. -/
structure Project where
  id : Nat
  workspace : Nat
  name : String
  description : Option String
  emoji : String
  createdBy : Nat
deriving DecidableEq, Repr

/-- Modelled from the spec: task.model.js is not under src/; the spec data
model gives Task the attributes id, workspace-id, project-id, title,
status, priority, assigned-to, due-date and created-by.  Dates are
modelled as naturals; an absent due date is none. -/
structure TaskDoc where
  id : Nat
  workspace : Nat
  project : Nat
  title : String
  status : TaskStatus
  priority : TaskPriority
  assignedTo : Option Nat
  dueDate : Option Nat
  createdBy : Nat
deriving DecidableEq, Repr

/-- The document store for the project domain. -/
structure PStore where
  projects : List Project
  tasks : List TaskDoc
deriving DecidableEq, Repr

/-- The analytics object returned by getProjectAnalyticsService. -/
structure Analytics where
  totalTasks : Nat
  overdueTasks : Nat
  completedTasks : Nat
deriving DecidableEq, Repr

/-- The overdue facet filter of the aggregation: dueDate strictly before
the current date (a missing due date never compares) and status not DONE. -/
def TaskDoc.isOverdueAt (t : TaskDoc) (now : Nat) : Bool :=
  (match t.dueDate with
   | some d => decide (d < now)
   | none => false) && t.status != TaskStatus.DONE

/-- getProjectAnalyticsService (part_001 lines 92-149): load the project
by id, check it belongs to the workspace, then run the faceted aggregation
over the tasks of the project, counting all tasks, the overdue ones and
the DONE ones. -/
def getProjectAnalyticsService (ps : PStore) (workspaceId projectId : Nat) (now : Nat) :
    Except AppError Analytics :=
  match ps.projects.find? (fun p => p.id == projectId) with
  | none => .error (.notFound "Project not found or does not belong to this workspace")
  | some project =>
    if project.workspace != workspaceId then
      .error (.notFound "Project not found or does not belong to this workspace")
    else
      let matched := ps.tasks.filter (fun t => t.project == projectId)
      .ok { totalTasks := matched.length,
            overdueTasks := (matched.filter (fun t => t.isOverdueAt now)).length,
            completedTasks := (matched.filter (fun t => t.status == TaskStatus.DONE)).length }

/-- The update body of updateProjectService; none models an absent or
null field, some a supplied string. -/
structure UpdateBody where
  name : Option String
  emoji : Option String
  description : Option String
deriving DecidableEq, Repr

/-- updateProjectService (part_001 lines 161-182): find the project by id
and workspace, fail with NotFound when absent, assign each of emoji, name
and description only when the supplied value is truthy, then save. -/
def updateProjectService (ps : PStore) (workspaceId projectId : Nat) (body : UpdateBody) :
    Except AppError (Project × PStore) :=
  match ps.projects.find? (fun p => p.id == projectId && p.workspace == workspaceId) with
  | none => .error (.notFound "Project not found or does not belong to the specified workspace")
  | some project =>
    let p1 := if truthy body.emoji then { project with emoji := body.emoji.getD project.emoji } else project
    let p2 := if truthy body.name then { p1 with name := body.name.getD p1.name } else p1
    let p3 := if truthy body.description then { p2 with description := body.description } else p2
    let ps2 : PStore := { ps with projects := ps.projects.map (fun q => if q.id == p3.id then p3 else q) }
    .ok (p3, ps2)

/-- Well-formedness of an identity store: every document id and every
id-valued reference field is below the allocation counter, so a freshly
allocated id is distinct from everything already present. -/
def Store.WF (s : Store) : Prop :=
  (∀ u ∈ s.users, u.id < s.nextId ∧
     (∀ w, u.currentWorkspace = some w → w < s.nextId)) ∧
  (∀ a ∈ s.accounts, a.id < s.nextId ∧ a.userId < s.nextId) ∧
  (∀ w ∈ s.workspaces, w.id < s.nextId ∧ w.owner < s.nextId) ∧
  (∀ m ∈ s.members, m.id < s.nextId ∧ m.userId < s.nextId ∧
     m.workspaceId < s.nextId ∧ m.role < s.nextId) ∧
  (∀ r ∈ s.roles, r.id < s.nextId)

instance (s : Store) : Decidable s.WF := by
  unfold Store.WF
  infer_instance

/-- The user document left in the store by a successful register: email
normalized and name trimmed by the schema setters, password hashed by the
pre-save hook (an empty password is falsy there and is stored as it is),
current workspace set by the second save. -/
def registeredUser (email name password : String) (uid wid : Nat) : UserDoc :=
  { id := uid, email := normalizeEmail email, name := trimString name,
    password := if password == "" then some password else some (hashValue password),
    profilePicture := none, currentWorkspace := some wid, passwordDirty := false }

/-- The user document left in the store by the creation branch of
login-or-create: no password, picture defaulted to null when falsy,
current workspace set by the second save. -/
def oauthUser (d : OAuthData) (uid wid : Nat) : UserDoc :=
  { id := uid, email := normalizeEmail d.email, name := trimString d.displayName,
    password := none,
    profilePicture := if truthy d.picture then d.picture else none,
    currentWorkspace := some wid, passwordDirty := false }

theorem map_replace_eq_self (l : List UserDoc) (uid : Nat) (v : UserDoc)
    (h : ∀ u ∈ l, u.id ≠ uid) :
    l.map (fun u => if u.id = uid then v else u) = l := by
  induction l with
  | nil => rfl
  | cons a t ih =>
      have ha : ¬ a.id = uid := h a (by simp)
      have ht := ih (fun u hu => h u (by simp [hu]))
      simp [ha, ht]

/-- Success normal form of the register body: on a well-formed store with
the email free and the OWNER role present, the body returns the fresh user
and workspace ids and appends exactly one document to each of the four
collections. -/
theorem registerBody_ok_of_wf (email name password : String) (now : Nat) (s : Store) (r : Role)
    (hwf : s.WF)
    (hfind : findUserByEmail s email = none)
    (hrole : s.roles.find? (fun q => q.name == RoleName.OWNER) = some r) :
    registerBody email name password now s =
      .ok ((s.nextId, s.nextId + 2),
        { users := s.users ++ [registeredUser email name password s.nextId (s.nextId + 2)],
          accounts := s.accounts ++
            [{ id := s.nextId + 1, userId := s.nextId, provider := Provider.EMAIL,
               providerId := email }],
          workspaces := s.workspaces ++
            [{ id := s.nextId + 2, name := "My Workspace",
               description := some ("Workspace created for " ++ trimString name),
               owner := s.nextId, inviteCode := generateInviteCode (s.nextId + 2) }],
          members := s.members ++
            [{ id := s.nextId + 3, userId := s.nextId, workspaceId := s.nextId + 2,
               role := r.id, joinedAt := now }],
          roles := s.roles,
          nextId := s.nextId + 4 }) := by
  have hmap : ∀ v : UserDoc,
      s.users.map (fun u => if u.id = s.nextId then v else u) = s.users := by
    intro v
    exact map_replace_eq_self s.users s.nextId v
      (fun u hu => Nat.ne_of_lt ((hwf.1 u hu).1))
  simp only [registerBody, hfind, findRoleByName, hrole]
  by_cases hp : password == "" <;>
    simp [UserDoc.applyPreSave, registeredUser, hp, hmap, List.map_append]

/-- Success normal form of the login-or-create body in the creation
branch: on a well-formed store with the email unknown and the OWNER role
present, the body returns the new user and appends exactly one document to
each of the four collections. -/
theorem loginOrCreateBody_ok_of_wf (d : OAuthData) (s : Store) (r : Role)
    (hwf : s.WF)
    (hfind : findUserByEmail s d.email = none)
    (hrole : s.roles.find? (fun q => q.name == RoleName.OWNER) = some r) :
    loginOrCreateBody d s =
      .ok (oauthUser d s.nextId (s.nextId + 2),
        { users := s.users ++ [oauthUser d s.nextId (s.nextId + 2)],
          accounts := s.accounts ++
            [{ id := s.nextId + 1, userId := s.nextId, provider := d.provider,
               providerId := d.providerId }],
          workspaces := s.workspaces ++
            [{ id := s.nextId + 2, name := "My Workspace",
               description := some ("Workspace created for " ++ trimString d.displayName),
               owner := s.nextId, inviteCode := generateInviteCode (s.nextId + 2) }],
          members := s.members ++
            [{ id := s.nextId + 3, userId := s.nextId, workspaceId := s.nextId + 2,
               role := r.id, joinedAt := d.now }],
          roles := s.roles,
          nextId := s.nextId + 4 }) := by
  have hmap : ∀ v : UserDoc,
      s.users.map (fun u => if u.id = s.nextId then v else u) = s.users := by
    intro v
    exact map_replace_eq_self s.users s.nextId v
      (fun u hu => Nat.ne_of_lt ((hwf.1 u hu).1))
  simp only [loginOrCreateBody, hfind, findRoleByName, hrole]
  simp [UserDoc.applyPreSave, oauthUser, hmap, List.map_append]

theorem registerBody_no_role (email name password : String) (now : Nat) (s : Store)
    (hfind : findUserByEmail s email = none)
    (hrole : s.roles.find? (fun q => q.name == RoleName.OWNER) = none) :
    registerBody email name password now s = .error (.notFound "Owner role not found") := by
  simp only [registerBody, hfind, findRoleByName, hrole]

theorem loginOrCreateBody_no_role (d : OAuthData) (s : Store)
    (hfind : findUserByEmail s d.email = none)
    (hrole : s.roles.find? (fun q => q.name == RoleName.OWNER) = none) :
    loginOrCreateBody d s = .error (.notFound "Owner role not found") := by
  simp only [loginOrCreateBody, hfind, findRoleByName, hrole]

/-- Inversion of a successful register: the email was free, the OWNER role
was present, the returned ids are the freshly allocated ones, the session
was ended once, and the final store is the initial one extended by exactly
the four new documents. -/
theorem registerUserService_ok_inv (email name password : String) (now : Nat) (s : Store)
    (uid wid : Nat) (s2 : Store) (sess : Session)
    (hwf : s.WF)
    (hrun : registerUserService email name password now s = (.ok (uid, wid), s2, sess)) :
    ∃ r, findUserByEmail s email = none ∧
      s.roles.find? (fun q => q.name == RoleName.OWNER) = some r ∧
      uid = s.nextId ∧ wid = s.nextId + 2 ∧ sess = { endCount := 1 } ∧
      s2 = { users := s.users ++ [registeredUser email name password s.nextId (s.nextId + 2)],
             accounts := s.accounts ++
               [{ id := s.nextId + 1, userId := s.nextId, provider := Provider.EMAIL,
                  providerId := email }],
             workspaces := s.workspaces ++
               [{ id := s.nextId + 2, name := "My Workspace",
                  description := some ("Workspace created for " ++ trimString name),
                  owner := s.nextId, inviteCode := generateInviteCode (s.nextId + 2) }],
             members := s.members ++
               [{ id := s.nextId + 3, userId := s.nextId, workspaceId := s.nextId + 2,
                  role := r.id, joinedAt := now }],
             roles := s.roles,
             nextId := s.nextId + 4 } := by
  cases hfe : findUserByEmail s email with
  | some u0 =>
      simp [registerUserService, registerBody, hfe] at hrun
  | none =>
      cases hrr : s.roles.find? (fun q => q.name == RoleName.OWNER) with
      | none =>
          have hb := registerBody_no_role email name password now s hfe hrr
          simp [registerUserService, hb] at hrun
      | some r =>
          have hb := registerBody_ok_of_wf email name password now s r hwf hfe hrr
          simp only [registerUserService, hb] at hrun
          obtain ⟨⟨h1, h2⟩, h3, h4⟩ := by
            simpa [Prod.ext_iff, Session.endSession] using hrun
          exact ⟨r, rfl, rfl, h1.symm, h2.symm, h4.symm, h3.symm⟩

/-- Inversion of a successful login-or-create: the session was ended
twice, and either the user already existed and the store is untouched, or
the email was free, the OWNER role was present, and the final store is the
initial one extended by exactly the four new documents. -/
theorem loginOrCreateAccountService_ok_inv (d : OAuthData) (s : Store)
    (u : UserDoc) (s2 : Store) (sess : Session)
    (hwf : s.WF)
    (hrun : loginOrCreateAccountService d s = (.ok u, s2, sess)) :
    sess = { endCount := 2 } ∧
    ((findUserByEmail s d.email = some u ∧ s2 = s) ∨
     (findUserByEmail s d.email = none ∧
      ∃ r, s.roles.find? (fun q => q.name == RoleName.OWNER) = some r ∧
        u = oauthUser d s.nextId (s.nextId + 2) ∧
        s2 = { users := s.users ++ [oauthUser d s.nextId (s.nextId + 2)],
               accounts := s.accounts ++
                 [{ id := s.nextId + 1, userId := s.nextId, provider := d.provider,
                    providerId := d.providerId }],
               workspaces := s.workspaces ++
                 [{ id := s.nextId + 2, name := "My Workspace",
                    description := some ("Workspace created for " ++ trimString d.displayName),
                    owner := s.nextId, inviteCode := generateInviteCode (s.nextId + 2) }],
               members := s.members ++
                 [{ id := s.nextId + 3, userId := s.nextId, workspaceId := s.nextId + 2,
                    role := r.id, joinedAt := d.now }],
               roles := s.roles,
               nextId := s.nextId + 4 })) := by
  cases hfe : findUserByEmail s d.email with
  | some u0 =>
      have hb : loginOrCreateBody d s = .ok (u0, s) := by
        simp [loginOrCreateBody, hfe]
      simp only [loginOrCreateAccountService, hb] at hrun
      obtain ⟨h1, h2, h3⟩ := by
        simpa [Prod.ext_iff, Session.endSession] using hrun
      exact ⟨h3.symm, Or.inl ⟨by rw [h1], h2.symm⟩⟩
  | none =>
      cases hrr : s.roles.find? (fun q => q.name == RoleName.OWNER) with
      | none =>
          have hb := loginOrCreateBody_no_role d s hfe hrr
          simp [loginOrCreateAccountService, hb] at hrun
      | some r =>
          have hb := loginOrCreateBody_ok_of_wf d s r hwf hfe hrr
          simp only [loginOrCreateAccountService, hb] at hrun
          obtain ⟨h1, h2, h3⟩ := by
            simpa [Prod.ext_iff, Session.endSession] using hrun
          exact ⟨h3.symm, Or.inr ⟨rfl, r, rfl, h1.symm, h2.symm⟩⟩

/-- A seeded OWNER role for concrete runs. -/
def demoRole : Role := { id := 0, name := RoleName.OWNER, permissions := [] }

/-- A well-formed store holding only the seeded OWNER role. -/
def demoStore : Store :=
  { users := [], accounts := [], workspaces := [], members := [], roles := [demoRole],
    nextId := 1 }

/-- A store with no seeded roles at all. -/
def emptyStore : Store :=
  { users := [], accounts := [], workspaces := [], members := [], roles := [], nextId := 0 }

/-- A concrete OAuth login payload. -/
def demoOAuth : OAuthData :=
  { provider := Provider.GOOGLE, providerId := "google-1", displayName := "Alice",
    email := "alice@example.com", picture := none, now := 5 }

/-- C1: whenever any step of register or of the creation branch of
login-or-create fails (for example the OWNER seed role is absent, raising
NotFound), the transaction is aborted: the final store is exactly the
initial one, so no User, Account, Workspace or Member created by the
invocation persists, and the caller observes precisely the originating
error. -/
theorem onboarding_rollback_on_failure (s : Store) (d : OAuthData)
    (email name password : String) (now : Nat) :
    (∀ e s2 sess, loginOrCreateAccountService d s = (.error e, s2, sess) → s2 = s) ∧
    (∀ e s2 sess, registerUserService email name password now s = (.error e, s2, sess) → s2 = s) ∧
    (s.roles.find? (fun q => q.name == RoleName.OWNER) = none →
      (findUserByEmail s d.email = none →
        loginOrCreateAccountService d s =
          (.error (.notFound "Owner role not found"), s, { endCount := 2 })) ∧
      (findUserByEmail s email = none →
        registerUserService email name password now s =
          (.error (.notFound "Owner role not found"), s, { endCount := 1 }))) := by
  refine ⟨?_, ?_, ?_⟩
  · intro e s2 sess h
    cases hb : loginOrCreateBody d s with
    | ok v =>
        obtain ⟨u, sx⟩ := v
        simp [loginOrCreateAccountService, hb] at h
    | error e2 =>
        simp only [loginOrCreateAccountService, hb] at h
        obtain ⟨h1, h2, h3⟩ := by simpa [Prod.ext_iff, Session.endSession] using h
        exact h2.symm
  · intro e s2 sess h
    cases hb : registerBody email name password now s with
    | ok v =>
        obtain ⟨ids, sx⟩ := v
        simp [registerUserService, hb] at h
    | error e2 =>
        simp only [registerUserService, hb] at h
        obtain ⟨h1, h2, h3⟩ := by simpa [Prod.ext_iff, Session.endSession] using h
        exact h2.symm
  · intro hrole
    constructor
    · intro hfe
      have hb := loginOrCreateBody_no_role d s hfe hrole
      simp [loginOrCreateAccountService, hb, Session.endSession]
    · intro hfe
      have hb := registerBody_no_role email name password now s hfe hrole
      simp [registerUserService, hb, Session.endSession]

/-- Witness for C1: on a store with no seeded roles, both entry points
fail with the NotFound of the missing OWNER role and leave the store
untouched. -/
theorem onboarding_rollback_on_failure_witness :
    loginOrCreateAccountService demoOAuth emptyStore =
      (.error (.notFound "Owner role not found"), emptyStore, { endCount := 2 }) ∧
    registerUserService "bob@example.com" "Bob" "pw" 0 emptyStore =
      (.error (.notFound "Owner role not found"), emptyStore, { endCount := 1 }) := by
  have h := onboarding_rollback_on_failure emptyStore demoOAuth "bob@example.com" "Bob" "pw" 0
  exact ⟨(h.2.2 (by decide)).1 (by decide), (h.2.2 (by decide)).2 (by decide)⟩

/-- C8 (amended): on every exit path the session handle is released at
least once and never left open, but not exactly once everywhere: register
calls endSession exactly once per invocation, while login-or-create calls
it exactly twice (once in the try respectively catch block and once more
in the finally block). -/
theorem session_end_counts (d : OAuthData) (s : Store)
    (email name password : String) (now : Nat) :
    ((loginOrCreateAccountService d s).2.2).endCount = 2 ∧
    ((registerUserService email name password now s).2.2).endCount = 1 := by
  constructor
  · cases hb : loginOrCreateBody d s with
    | ok v =>
        obtain ⟨u, sx⟩ := v
        simp [loginOrCreateAccountService, hb, Session.endSession]
    | error e =>
        simp [loginOrCreateAccountService, hb, Session.endSession]
  · cases hb : registerBody email name password now s with
    | ok v =>
        obtain ⟨ids, sx⟩ := v
        simp [registerUserService, hb, Session.endSession]
    | error e =>
        simp [registerUserService, hb, Session.endSession]

/-- Counterexample for C8 as stated: a concrete login-or-create invocation
ends its session twice, not exactly once. -/
theorem session_end_counts_cex :
    ((loginOrCreateAccountService demoOAuth demoStore).2.2).endCount ≠ 1 := by decide

/-- C6: verify with an email for which no EMAIL account exists fails with
NotFound, and with an existing account but a wrong password fails with
Unauthorized; the two error messages are the identical string, revealing
neither condition. -/
theorem verify_error_indistinguishable (s : Store) (email password : String) :
    (s.accounts.find? (fun a => a.provider == Provider.EMAIL && a.providerId == email) = none →
      verifyUserService email password Provider.EMAIL s =
        .error (.notFound "Invalid email or password")) ∧
    (∀ acc u,
      s.accounts.find? (fun a => a.provider == Provider.EMAIL && a.providerId == email) = some acc →
      s.users.find? (fun x => x.id == acc.userId) = some u →
      u.comparePassword password = false →
      verifyUserService email password Provider.EMAIL s =
        .error (.unauthorized "Invalid email or password")) ∧
    (AppError.notFound "Invalid email or password").message =
      (AppError.unauthorized "Invalid email or password").message := by
  refine ⟨?_, ?_, rfl⟩
  · intro h
    simp [verifyUserService, h]
  · intro acc u ha hu hcmp
    simp [verifyUserService, ha, hu, hcmp]

/-- A user with a stored bcrypt hash of the password named right. -/
def demoVerifyUser : UserDoc :=
  { id := 1, email := "carol@example.com", name := "Carol",
    password := some (hashValue "right"), profilePicture := none,
    currentWorkspace := none, passwordDirty := false }

/-- A store holding that user and her EMAIL account. -/
def demoVerifyStore : Store :=
  { users := [demoVerifyUser],
    accounts := [{ id := 2, userId := 1, provider := Provider.EMAIL,
                   providerId := "carol@example.com" }],
    workspaces := [], members := [], roles := [demoRole], nextId := 3 }

/-- Witness for C6: a wrong password yields Unauthorized and an unknown
email yields NotFound, both carrying the same message. -/
theorem verify_error_indistinguishable_witness :
    verifyUserService "carol@example.com" "wrong" Provider.EMAIL demoVerifyStore =
      .error (.unauthorized "Invalid email or password") ∧
    verifyUserService "dave@example.com" "pw" Provider.EMAIL demoVerifyStore =
      .error (.notFound "Invalid email or password") := by
  constructor
  · exact (verify_error_indistinguishable demoVerifyStore "carol@example.com" "wrong").2.1
      { id := 2, userId := 1, provider := Provider.EMAIL, providerId := "carol@example.com" }
      demoVerifyUser (by decide) (by decide) (by decide)
  · exact (verify_error_indistinguishable demoVerifyStore "dave@example.com" "pw").1 (by decide)

theorem find?_append_none {α : Type} (p : α → Bool) (l1 l2 : List α)
    (h : l1.find? p = none) : (l1 ++ l2).find? p = l2.find? p := by
  rw [List.find?_append, h]
  rfl

instance {ε α : Type} [DecidableEq ε] [DecidableEq α] : DecidableEq (Except ε α) := fun x y =>
  match x, y with
  | .ok a, .ok b =>
      if h : a = b then .isTrue (by rw [h]) else .isFalse (by simp [h])
  | .error a, .error b =>
      if h : a = b then .isTrue (by rw [h]) else .isFalse (by simp [h])
  | .ok a, .error b => .isFalse (by simp)
  | .error a, .ok b => .isFalse (by simp)

/-- C2 (amended): for every email that is not previously registered (no
user carries it and no EMAIL account is keyed by it), every name and every
non-empty password, register succeeds, and a subsequent verify with the
same email and password succeeds and returns the user sanitized of the
password field (the UserView shape carries no password), whose stored
email is the registered email normalized by the schema setters (trimmed
and lowercased), hence equal to the registered email whenever that one is
already in normal form. -/
theorem register_then_verify (email name password : String) (now : Nat) (s : Store) (r : Role)
    (hwf : s.WF)
    (hfind : findUserByEmail s email = none)
    (hacc : ∀ a ∈ s.accounts, ¬(a.provider = Provider.EMAIL ∧ a.providerId = email))
    (hrole : s.roles.find? (fun q => q.name == RoleName.OWNER) = some r)
    (hpw : password ≠ "") :
    ∃ s2 sess,
      registerUserService email name password now s = (.ok (s.nextId, s.nextId + 2), s2, sess) ∧
      verifyUserService email password Provider.EMAIL s2 =
        .ok (UserDoc.omitPassword (registeredUser email name password s.nextId (s.nextId + 2))) ∧
      (UserDoc.omitPassword (registeredUser email name password s.nextId (s.nextId + 2))).email =
        normalizeEmail email := by
  have hb := registerBody_ok_of_wf email name password now s r hwf hfind hrole
  have hpwb : (password == "") = false := beq_eq_false_iff_ne.mpr hpw
  refine ⟨{ users := s.users ++ [registeredUser email name password s.nextId (s.nextId + 2)],
            accounts := s.accounts ++
              [{ id := s.nextId + 1, userId := s.nextId, provider := Provider.EMAIL,
                 providerId := email }],
            workspaces := s.workspaces ++
              [{ id := s.nextId + 2, name := "My Workspace",
                 description := some ("Workspace created for " ++ trimString name),
                 owner := s.nextId, inviteCode := generateInviteCode (s.nextId + 2) }],
            members := s.members ++
              [{ id := s.nextId + 3, userId := s.nextId, workspaceId := s.nextId + 2,
                 role := r.id, joinedAt := now }],
            roles := s.roles, nextId := s.nextId + 4 },
          { endCount := 1 }, ?_, ?_, ?_⟩
  · simp [registerUserService, hb, Session.endSession]
  · have haccnone : s.accounts.find?
        (fun a => a.provider == Provider.EMAIL && a.providerId == email) = none := by
      rw [List.find?_eq_none]
      intro a ha
      have h2 := hacc a ha
      simp only [Bool.and_eq_true, beq_iff_eq]
      tauto
    have husernone : s.users.find? (fun x => x.id == s.nextId) = none := by
      rw [List.find?_eq_none]
      intro x hx
      simp [Nat.ne_of_lt ((hwf.1 x hx).1)]
    simp only [verifyUserService]
    rw [find?_append_none _ _ _ haccnone]
    simp only [List.find?_cons, List.find?_nil]
    norm_num
    rw [husernone]
    simp [registeredUser, UserDoc.comparePassword, compareValue, hpwb]
  · simp [registeredUser, UserDoc.omitPassword]

/-- Witness for C2: a concrete register of bob followed by a verify with
the same credentials succeeds and returns his sanitized user. -/
theorem register_then_verify_witness :
    ∃ s2 sess,
      registerUserService "bob@example.com" "Bob" "pw" 0 demoStore = (.ok (1, 3), s2, sess) ∧
      verifyUserService "bob@example.com" "pw" Provider.EMAIL s2 =
        .ok (UserDoc.omitPassword (registeredUser "bob@example.com" "Bob" "pw" 1 3)) ∧
      (UserDoc.omitPassword (registeredUser "bob@example.com" "Bob" "pw" 1 3)).email =
        normalizeEmail "bob@example.com" :=
  register_then_verify "bob@example.com" "Bob" "pw" 0 demoStore demoRole
    (by decide) (by decide) (by decide) (by decide) (by decide)

/-- Counterexample for C2 as stated: registering with the mixed-case email
Ada@Example.com succeeds and verify succeeds, but the returned user record
carries the lowercased email, which differs from the registered one. -/
theorem register_then_verify_cex :
    (registerUserService "Ada@Example.com" "Ada" "pw" 0 demoStore).1 = .ok (1, 3) ∧
    (verifyUserService "Ada@Example.com" "pw" Provider.EMAIL
        (registerUserService "Ada@Example.com" "Ada" "pw" 0 demoStore).2.1).map
        UserView.email = .ok "ada@example.com" ∧
    "ada@example.com" ≠ "Ada@Example.com" := by
  refine ⟨by decide, by decide, by decide⟩

/-- C3 (amended): when register succeeds for an email and register is
called again with the same email string (any name and password), the
second call fails with BadRequest, leaves the store untouched, and the
store contains exactly one User whose email is the normalized (trimmed,
lowercased) form of that email; the stored email equals the registered
string itself exactly when that string is already in normal form. -/
theorem register_twice (email name password name2 password2 : String)
    (now now2 : Nat) (s : Store) (uid wid : Nat) (s2 : Store) (sess : Session)
    (hwf : s.WF)
    (hrun : registerUserService email name password now s = (.ok (uid, wid), s2, sess)) :
    registerUserService email name2 password2 now2 s2 =
      (.error (.badRequest "Email already exists"), s2, { endCount := 1 }) ∧
    s2.users.countP (fun u => u.email == normalizeEmail email) = 1 := by
  obtain ⟨r, hfe, hrr, huid, hwid, hsess, hs2⟩ :=
    registerUserService_ok_inv email name password now s uid wid s2 sess hwf hrun
  have hfe' : s.users.find? (fun u => u.email == normalizeEmail email) = none := hfe
  subst hs2
  have hfind2 : findUserByEmail
      { users := s.users ++ [registeredUser email name password s.nextId (s.nextId + 2)],
        accounts := s.accounts ++
          [{ id := s.nextId + 1, userId := s.nextId, provider := Provider.EMAIL,
             providerId := email }],
        workspaces := s.workspaces ++
          [{ id := s.nextId + 2, name := "My Workspace",
             description := some ("Workspace created for " ++ trimString name),
             owner := s.nextId, inviteCode := generateInviteCode (s.nextId + 2) }],
        members := s.members ++
          [{ id := s.nextId + 3, userId := s.nextId, workspaceId := s.nextId + 2,
             role := r.id, joinedAt := now }],
        roles := s.roles, nextId := s.nextId + 4 } email
      = some (registeredUser email name password s.nextId (s.nextId + 2)) := by
    unfold findUserByEmail
    rw [find?_append_none _ _ _ hfe']
    simp [registeredUser]
  constructor
  · simp [registerUserService, registerBody, hfind2, Session.endSession]
  · have hzero : s.users.countP (fun u => u.email == normalizeEmail email) = 0 :=
      List.countP_eq_zero.mpr (List.find?_eq_none.mp hfe')
    simp only [List.countP_append, hzero]
    simp [registeredUser, List.countP_cons]

/-- The store left by a concrete successful register of bob. -/
def demoStore2 : Store := (registerUserService "bob@example.com" "Bob" "pw" 0 demoStore).2.1

/-- Witness for C3: after registering bob, a second register with the same
email fails with BadRequest and exactly one stored user carries the
email. -/
theorem register_twice_witness :
    registerUserService "bob@example.com" "B2" "p2" 1 demoStore2 =
      (.error (.badRequest "Email already exists"), demoStore2, { endCount := 1 }) ∧
    demoStore2.users.countP (fun u => u.email == normalizeEmail "bob@example.com") = 1 :=
  register_twice "bob@example.com" "Bob" "pw" "B2" "p2" 0 1 demoStore 1 3 demoStore2
    { endCount := 1 } (by decide) (by decide)

/-- Counterexample for C3 as stated: after registering the mixed-case
email Ada@Example.com the second register fails as claimed, but zero
stored users carry the literal registered string, because the schema
setters lowercased it. -/
theorem register_twice_cex :
    (registerUserService "Ada@Example.com" "Bob" "pw2" 1
        (registerUserService "Ada@Example.com" "Ada" "pw" 0 demoStore).2.1).1 =
      .error (.badRequest "Email already exists") ∧
    ((registerUserService "Ada@Example.com" "Ada" "pw" 0 demoStore).2.1).users.countP
        (fun u => u.email == "Ada@Example.com") = 0 := by
  refine ⟨by decide, by decide⟩

theorem countP_append_fresh {α : Type} (p : α → Bool) (l : List α) (x : α)
    (hold : ∀ a ∈ l, ¬ p a) (hx : p x = true) :
    (l ++ [x]).countP p = 1 := by
  rw [List.countP_append, List.countP_eq_zero.mpr hold]
  simp [List.countP_cons, hx]

/-- C4: after a successful register, and after a successful creation
branch of login-or-create, exactly one Workspace, exactly one Account and
exactly one Member reference the new user id, every Member referencing it
holds the OWNER role, and the stored user's current workspace is the new
workspace id. -/
theorem onboarding_creates_unique_records (s : Store) (hwf : s.WF) :
    (∀ email name password now uid wid s2 sess,
      registerUserService email name password now s = (.ok (uid, wid), s2, sess) →
      s2.accounts.countP (fun a => a.userId == uid) = 1 ∧
      s2.workspaces.countP (fun w => w.owner == uid) = 1 ∧
      s2.members.countP (fun m => m.userId == uid) = 1 ∧
      (∀ m ∈ s2.members, m.userId = uid →
        ∃ r, r ∈ s2.roles ∧ r.id = m.role ∧ r.name = RoleName.OWNER) ∧
      (∃ w, w ∈ s2.workspaces ∧ w.id = wid ∧ w.owner = uid) ∧
      (∃ u, u ∈ s2.users ∧ u.id = uid ∧ u.currentWorkspace = some wid) ∧
      s2.users.countP (fun u => u.id == uid) = 1) ∧
    (∀ d u s2 sess,
      findUserByEmail s d.email = none →
      loginOrCreateAccountService d s = (.ok u, s2, sess) →
      u.id = s.nextId ∧ u.currentWorkspace = some (s.nextId + 2) ∧
      s2.accounts.countP (fun a => a.userId == u.id) = 1 ∧
      s2.workspaces.countP (fun w => w.owner == u.id) = 1 ∧
      s2.members.countP (fun m => m.userId == u.id) = 1 ∧
      (∀ m ∈ s2.members, m.userId = u.id →
        ∃ r, r ∈ s2.roles ∧ r.id = m.role ∧ r.name = RoleName.OWNER) ∧
      (∃ w, w ∈ s2.workspaces ∧ w.id = s.nextId + 2 ∧ w.owner = u.id) ∧
      (∃ x, x ∈ s2.users ∧ x.id = u.id ∧ x.currentWorkspace = some (s.nextId + 2)) ∧
      s2.users.countP (fun x => x.id == u.id) = 1) := by
  constructor
  · intro email name password now uid wid s2 sess hrun
    obtain ⟨r, hfe, hrr, huid, hwid, hsess, hs2⟩ :=
      registerUserService_ok_inv email name password now s uid wid s2 sess hwf hrun
    subst huid hwid hs2
    have hrname : r.name = RoleName.OWNER := by
      have h := List.find?_some hrr
      simpa using h
    have hrmem : r ∈ s.roles := List.mem_of_find?_eq_some hrr
    refine ⟨?_, ?_, ?_, ?_, ?_, ?_, ?_⟩
    · exact countP_append_fresh _ _ _
        (fun a ha => by simp [Nat.ne_of_lt (hwf.2.1 a ha).2]) (by simp)
    · exact countP_append_fresh _ _ _
        (fun w hw => by simp [Nat.ne_of_lt (hwf.2.2.1 w hw).2]) (by simp)
    · exact countP_append_fresh _ _ _
        (fun m hm => by simp [Nat.ne_of_lt (hwf.2.2.2.1 m hm).2.1]) (by simp)
    · intro m hm hmu
      rcases List.mem_append.mp hm with hold | hnew
      · exact absurd hmu (Nat.ne_of_lt (hwf.2.2.2.1 m hold).2.1)
      · have hmeq := List.mem_singleton.mp hnew
        subst hmeq
        exact ⟨r, hrmem, rfl, hrname⟩
    · refine ⟨{ id := s.nextId + 2, name := "My Workspace",
                description := some ("Workspace created for " ++ trimString name),
                owner := s.nextId, inviteCode := generateInviteCode (s.nextId + 2) },
              List.mem_append.mpr (Or.inr (by simp)), rfl, rfl⟩
    · refine ⟨registeredUser email name password s.nextId (s.nextId + 2),
        List.mem_append.mpr (Or.inr (by simp)), rfl, rfl⟩
    · exact countP_append_fresh _ _ _
        (fun x hx => by simp [Nat.ne_of_lt ((hwf.1 x hx).1)]) (by simp [registeredUser])
  · intro d u s2 sess hfe hrun
    obtain ⟨hsess, hcase⟩ :=
      loginOrCreateAccountService_ok_inv d s u s2 sess hwf hrun
    rcases hcase with ⟨hfound, _⟩ | ⟨_, r, hrr, hu, hs2⟩
    · rw [hfe] at hfound
      exact absurd hfound (by simp)
    · subst hu hs2
      have hrname : r.name = RoleName.OWNER := by
        have h := List.find?_some hrr
        simpa using h
      have hrmem : r ∈ s.roles := List.mem_of_find?_eq_some hrr
      refine ⟨rfl, rfl, ?_, ?_, ?_, ?_, ?_, ?_, ?_⟩
      · exact countP_append_fresh _ _ _
          (fun a ha => by simp [oauthUser, Nat.ne_of_lt (hwf.2.1 a ha).2]) (by simp [oauthUser])
      · exact countP_append_fresh _ _ _
          (fun w hw => by simp [oauthUser, Nat.ne_of_lt (hwf.2.2.1 w hw).2]) (by simp [oauthUser])
      · exact countP_append_fresh _ _ _
          (fun m hm => by simp [oauthUser, Nat.ne_of_lt (hwf.2.2.2.1 m hm).2.1]) (by simp [oauthUser])
      · intro m hm hmu
        rcases List.mem_append.mp hm with hold | hnew
        · rw [show (oauthUser d s.nextId (s.nextId + 2)).id = s.nextId from rfl] at hmu
          exact absurd hmu (Nat.ne_of_lt (hwf.2.2.2.1 m hold).2.1)
        · have hmeq := List.mem_singleton.mp hnew
          subst hmeq
          exact ⟨r, hrmem, rfl, hrname⟩
      · refine ⟨{ id := s.nextId + 2, name := "My Workspace",
                  description := some ("Workspace created for " ++ trimString d.displayName),
                  owner := s.nextId, inviteCode := generateInviteCode (s.nextId + 2) },
                List.mem_append.mpr (Or.inr (by simp)), rfl, rfl⟩
      · refine ⟨oauthUser d s.nextId (s.nextId + 2),
          List.mem_append.mpr (Or.inr (by simp)), rfl, rfl⟩
      · exact countP_append_fresh _ _ _
          (fun x hx => by simp [oauthUser, Nat.ne_of_lt ((hwf.1 x hx).1)]) (by simp [oauthUser])

/-- The store left by a concrete successful login-or-create of alice. -/
def demoStore3 : Store := (loginOrCreateAccountService demoOAuth demoStore).2.1

/-- Witness for C4: the concrete register of bob and the concrete OAuth
creation of alice each leave exactly one account, workspace and owner
membership referencing the new user id. -/
theorem onboarding_creates_unique_records_witness :
    (demoStore2.accounts.countP (fun a => a.userId == 1) = 1 ∧
     demoStore2.workspaces.countP (fun w => w.owner == 1) = 1 ∧
     demoStore2.members.countP (fun m => m.userId == 1) = 1 ∧
     (∀ m ∈ demoStore2.members, m.userId = 1 →
       ∃ r, r ∈ demoStore2.roles ∧ r.id = m.role ∧ r.name = RoleName.OWNER) ∧
     (∃ w, w ∈ demoStore2.workspaces ∧ w.id = 3 ∧ w.owner = 1) ∧
     (∃ u, u ∈ demoStore2.users ∧ u.id = 1 ∧ u.currentWorkspace = some 3) ∧
     demoStore2.users.countP (fun u => u.id == 1) = 1) ∧
    ((oauthUser demoOAuth 1 3).id = 1 ∧
     (oauthUser demoOAuth 1 3).currentWorkspace = some 3 ∧
     demoStore3.accounts.countP (fun a => a.userId == (oauthUser demoOAuth 1 3).id) = 1 ∧
     demoStore3.workspaces.countP (fun w => w.owner == (oauthUser demoOAuth 1 3).id) = 1 ∧
     demoStore3.members.countP (fun m => m.userId == (oauthUser demoOAuth 1 3).id) = 1 ∧
     (∀ m ∈ demoStore3.members, m.userId = (oauthUser demoOAuth 1 3).id →
       ∃ r, r ∈ demoStore3.roles ∧ r.id = m.role ∧ r.name = RoleName.OWNER) ∧
     (∃ w, w ∈ demoStore3.workspaces ∧ w.id = 3 ∧ w.owner = (oauthUser demoOAuth 1 3).id) ∧
     (∃ x, x ∈ demoStore3.users ∧ x.id = (oauthUser demoOAuth 1 3).id ∧
       x.currentWorkspace = some 3) ∧
     demoStore3.users.countP (fun x => x.id == (oauthUser demoOAuth 1 3).id) = 1) :=
  ⟨(onboarding_creates_unique_records demoStore (by decide)).1
      "bob@example.com" "Bob" "pw" 0 1 3 demoStore2 { endCount := 1 } (by decide),
   (onboarding_creates_unique_records demoStore (by decide)).2
      demoOAuth (oauthUser demoOAuth 1 3) demoStore3 { endCount := 2 } (by decide) (by decide)⟩

/-- C5: login-or-create run twice in sequence with the same payload is
idempotent: when the first call succeeds, the second call returns the very
same user with the store completely unchanged (zero new writes). -/
theorem login_or_create_idempotent (d : OAuthData) (s : Store)
    (u1 : UserDoc) (s2 : Store) (sess1 : Session)
    (hwf : s.WF)
    (hrun : loginOrCreateAccountService d s = (.ok u1, s2, sess1)) :
    loginOrCreateAccountService d s2 = (.ok u1, s2, { endCount := 2 }) := by
  obtain ⟨hsess, hcase⟩ := loginOrCreateAccountService_ok_inv d s u1 s2 sess1 hwf hrun
  rcases hcase with ⟨hfound, hs2⟩ | ⟨hfe, r, hrr, hu, hs2⟩
  · rw [hs2]
    have hb : loginOrCreateBody d s = .ok (u1, s) := by
      simp [loginOrCreateBody, hfound]
    simp [loginOrCreateAccountService, hb, Session.endSession]
  · subst hu hs2
    have hfe' : s.users.find? (fun u => u.email == normalizeEmail d.email) = none := hfe
    have hfind2 : findUserByEmail
        { users := s.users ++ [oauthUser d s.nextId (s.nextId + 2)],
          accounts := s.accounts ++
            [{ id := s.nextId + 1, userId := s.nextId, provider := d.provider,
               providerId := d.providerId }],
          workspaces := s.workspaces ++
            [{ id := s.nextId + 2, name := "My Workspace",
               description := some ("Workspace created for " ++ trimString d.displayName),
               owner := s.nextId, inviteCode := generateInviteCode (s.nextId + 2) }],
          members := s.members ++
            [{ id := s.nextId + 3, userId := s.nextId, workspaceId := s.nextId + 2,
               role := r.id, joinedAt := d.now }],
          roles := s.roles, nextId := s.nextId + 4 } d.email
        = some (oauthUser d s.nextId (s.nextId + 2)) := by
      unfold findUserByEmail
      rw [find?_append_none _ _ _ hfe']
      simp [oauthUser]
    have hb : loginOrCreateBody d
        { users := s.users ++ [oauthUser d s.nextId (s.nextId + 2)],
          accounts := s.accounts ++
            [{ id := s.nextId + 1, userId := s.nextId, provider := d.provider,
               providerId := d.providerId }],
          workspaces := s.workspaces ++
            [{ id := s.nextId + 2, name := "My Workspace",
               description := some ("Workspace created for " ++ trimString d.displayName),
               owner := s.nextId, inviteCode := generateInviteCode (s.nextId + 2) }],
          members := s.members ++
            [{ id := s.nextId + 3, userId := s.nextId, workspaceId := s.nextId + 2,
               role := r.id, joinedAt := d.now }],
          roles := s.roles, nextId := s.nextId + 4 } =
        .ok (oauthUser d s.nextId (s.nextId + 2),
          { users := s.users ++ [oauthUser d s.nextId (s.nextId + 2)],
            accounts := s.accounts ++
              [{ id := s.nextId + 1, userId := s.nextId, provider := d.provider,
                 providerId := d.providerId }],
            workspaces := s.workspaces ++
              [{ id := s.nextId + 2, name := "My Workspace",
                 description := some ("Workspace created for " ++ trimString d.displayName),
                 owner := s.nextId, inviteCode := generateInviteCode (s.nextId + 2) }],
            members := s.members ++
              [{ id := s.nextId + 3, userId := s.nextId, workspaceId := s.nextId + 2,
                 role := r.id, joinedAt := d.now }],
            roles := s.roles, nextId := s.nextId + 4 }) := by
      simp [loginOrCreateBody, hfind2]
    simp [loginOrCreateAccountService, hb, Session.endSession]

/-- Witness for C5: a second login-or-create of alice returns her user and
changes nothing. -/
theorem login_or_create_idempotent_witness :
    loginOrCreateAccountService demoOAuth demoStore3 =
      (.ok (oauthUser demoOAuth 1 3), demoStore3, { endCount := 2 }) :=
  login_or_create_idempotent demoOAuth demoStore (oauthUser demoOAuth 1 3) demoStore3
    { endCount := 2 } (by decide) (by decide)

/-- C7 (amended): the pre-save hook hashes the password exactly when the
password path was modified and the value is truthy; a falsy (empty-string)
password write is persisted unchanged and unhashed; a save without a
password modification never re-hashes; consequently the user stored by a
register with a non-empty password carries the hash of that password,
hashed once, although the document is saved a second time to set the
current workspace. -/
theorem password_hashed_once :
    (∀ u : UserDoc, u.passwordDirty = false → (u.applyPreSave).password = u.password) ∧
    (∀ (u : UserDoc) (p : String), u.passwordDirty = true → u.password = some p → p ≠ "" →
      (u.applyPreSave).password = some (hashValue p)) ∧
    (∀ email name password now s uid wid s2 sess, Store.WF s → password ≠ "" →
      registerUserService email name password now s = (.ok (uid, wid), s2, sess) →
      ∀ u ∈ s2.users, u.id = uid → u.password = some (hashValue password)) ∧
    (∀ u : UserDoc, u.passwordDirty = true → u.password = some "" →
      (u.applyPreSave).password = some "") := by
  refine ⟨?_, ?_, ?_, ?_⟩
  · intro u h
    simp [UserDoc.applyPreSave, h]
  · intro u p hdirty hp hne
    simp [UserDoc.applyPreSave, hdirty, hp, beq_eq_false_iff_ne.mpr hne]
  · intro email name password now s uid wid s2 sess hwf hpw hrun u hu huid
    obtain ⟨r, hfe, hrr, huideq, hwideq, hsess, hs2⟩ :=
      registerUserService_ok_inv email name password now s uid wid s2 sess hwf hrun
    subst huideq hs2
    rcases List.mem_append.mp hu with hold | hnew
    · exact absurd huid (Nat.ne_of_lt ((hwf.1 u hold).1))
    · have hueq := List.mem_singleton.mp hnew
      subst hueq
      simp [registeredUser, beq_eq_false_iff_ne.mpr hpw]
  · intro u hdirty hp
    simp [UserDoc.applyPreSave, hdirty, hp]

/-- Witness for C7: the user stored for bob carries the single hash of his
password. -/
theorem password_hashed_once_witness :
    (registeredUser "bob@example.com" "Bob" "pw" 1 3).password = some (hashValue "pw") :=
  password_hashed_once.2.2.1 "bob@example.com" "Bob" "pw" 0 demoStore 1 3 demoStore2
    { endCount := 1 } (by decide) (by decide) (by decide)
    (registeredUser "bob@example.com" "Bob" "pw" 1 3) (by decide) rfl

/-- Counterexample for C7 as stated: registering eve with the empty-string
password persists the password write unhashed, because the hook guard
if this.password is falsy for the empty string; so not every write of the
password field is hashed before being persisted. -/
theorem password_hashed_once_cex :
    ((registerUserService "eve@example.com" "Eve" "" 0 demoStore).2.1).users.map
        UserDoc.password = [some ""] ∧
    some "" ≠ some (hashValue "") := by
  refine ⟨by decide, by decide⟩

instance decDueBefore (o : Option Nat) (now : Nat) : Decidable (∃ d, o = some d ∧ d < now) :=
  match o with
  | none => isFalse (by simp)
  | some d => if h : d < now then isTrue ⟨d, rfl, h⟩ else isFalse (by simp [h])

theorem isOverdueAt_spec (t : TaskDoc) (now : Nat) :
    t.isOverdueAt now =
      decide (t.status ≠ TaskStatus.DONE ∧ ∃ d, t.dueDate = some d ∧ d < now) := by
  cases hd : t.dueDate with
  | none => simp [TaskDoc.isOverdueAt, hd]
  | some d =>
      by_cases hlt : d < now <;> by_cases hs : t.status = TaskStatus.DONE <;>
        simp [TaskDoc.isOverdueAt, hd, hlt, hs]

/-- C9: for the tasks of a project, the returned analytics counts satisfy:
completedTasks is the number of tasks with status DONE, overdueTasks is
the number of tasks with a due date strictly before the current time whose
status is not DONE (a DONE task is never counted overdue), and both are at
most totalTasks, the number of tasks of the project. -/
theorem analytics_spec (ps : PStore) (workspaceId projectId now : Nat) (a : Analytics)
    (h : getProjectAnalyticsService ps workspaceId projectId now = .ok a) :
    a.totalTasks = (ps.tasks.filter (fun t => t.project == projectId)).length ∧
    a.completedTasks =
      (ps.tasks.filter (fun t => t.project == projectId)).countP
        (fun t => t.status == TaskStatus.DONE) ∧
    a.overdueTasks =
      (ps.tasks.filter (fun t => t.project == projectId)).countP
        (fun t : TaskDoc => decide (t.status ≠ TaskStatus.DONE ∧ ∃ d, t.dueDate = some d ∧ d < now)) ∧
    a.completedTasks ≤ a.totalTasks ∧
    a.overdueTasks ≤ a.totalTasks := by
  cases hp : ps.projects.find? (fun p => p.id == projectId) with
  | none => simp [getProjectAnalyticsService, hp] at h
  | some project =>
      simp only [getProjectAnalyticsService, hp] at h
      by_cases hws : project.workspace = workspaceId
      · simp only [hws, bne_self_eq_false, Bool.false_eq_true, if_false] at h
        injection h with h2
        subst h2
        refine ⟨rfl, by simp [List.countP_eq_length_filter], ?_,
          List.length_filter_le _ _, List.length_filter_le _ _⟩
        show ((ps.tasks.filter (fun t => t.project == projectId)).filter
          (fun t => t.isOverdueAt now)).length = _
        rw [← List.countP_eq_length_filter]
        exact List.countP_congr (fun t ht => by rw [isOverdueAt_spec])
      · simp [hws] at h

/-- A concrete project in workspace 0. -/
def demoProject : Project :=
  { id := 1, workspace := 0, name := "Launch", description := none, emoji := "e",
    createdBy := 7 }

/-- A concrete task board: for project 1 one DONE task, one overdue TODO
task, one TODO task without a due date; plus a task of another project. -/
def demoPStore : PStore :=
  { projects := [demoProject],
    tasks :=
      [{ id := 10, workspace := 0, project := 1, title := "t1", status := TaskStatus.DONE,
         priority := TaskPriority.LOW, assignedTo := none, dueDate := some 3, createdBy := 7 },
       { id := 11, workspace := 0, project := 1, title := "t2", status := TaskStatus.TODO,
         priority := TaskPriority.LOW, assignedTo := none, dueDate := some 3, createdBy := 7 },
       { id := 12, workspace := 0, project := 1, title := "t3", status := TaskStatus.TODO,
         priority := TaskPriority.LOW, assignedTo := none, dueDate := none, createdBy := 7 },
       { id := 13, workspace := 0, project := 2, title := "t4", status := TaskStatus.TODO,
         priority := TaskPriority.LOW, assignedTo := none, dueDate := some 1, createdBy := 7 }] }

/-- Witness for C9: on the concrete board at time 5 the analytics are 3
total, 1 overdue, 1 completed, and they satisfy the counting spec. -/
theorem analytics_spec_witness :
    ({ totalTasks := 3, overdueTasks := 1, completedTasks := 1 } : Analytics).totalTasks =
      (demoPStore.tasks.filter (fun t => t.project == 1)).length ∧
    ({ totalTasks := 3, overdueTasks := 1, completedTasks := 1 } : Analytics).completedTasks =
      (demoPStore.tasks.filter (fun t => t.project == 1)).countP
        (fun t => t.status == TaskStatus.DONE) ∧
    ({ totalTasks := 3, overdueTasks := 1, completedTasks := 1 } : Analytics).overdueTasks =
      (demoPStore.tasks.filter (fun t => t.project == 1)).countP
        (fun t : TaskDoc => decide (t.status ≠ TaskStatus.DONE ∧ ∃ d, t.dueDate = some d ∧ d < 5)) ∧
    ({ totalTasks := 3, overdueTasks := 1, completedTasks := 1 } : Analytics).completedTasks ≤
      ({ totalTasks := 3, overdueTasks := 1, completedTasks := 1 } : Analytics).totalTasks ∧
    ({ totalTasks := 3, overdueTasks := 1, completedTasks := 1 } : Analytics).overdueTasks ≤
      ({ totalTasks := 3, overdueTasks := 1, completedTasks := 1 } : Analytics).totalTasks :=
  analytics_spec demoPStore 0 1 5
    { totalTasks := 3, overdueTasks := 1, completedTasks := 1 } (by decide)

/-- C10: updating an existing project changes only the emoji, name and
description fields, each exactly when the corresponding body value is
truthy (absent, null or empty-string values leave the stored field as it
is); the workspace and created-by fields are never modified, the tasks are
untouched, and the store changes only at the project with the updated
id. -/
theorem update_project_frame (ps : PStore) (workspaceId projectId : Nat)
    (body : UpdateBody) (p : Project)
    (hfind : ps.projects.find?
      (fun q => q.id == projectId && q.workspace == workspaceId) = some p) :
    ∃ p2 ps2,
      updateProjectService ps workspaceId projectId body = .ok (p2, ps2) ∧
      p2.id = p.id ∧ p2.workspace = p.workspace ∧ p2.createdBy = p.createdBy ∧
      p2.emoji = (if truthy body.emoji then body.emoji.getD p.emoji else p.emoji) ∧
      p2.name = (if truthy body.name then body.name.getD p.name else p.name) ∧
      p2.description = (if truthy body.description then body.description else p.description) ∧
      ps2.tasks = ps.tasks ∧
      ps2.projects = ps.projects.map (fun q => if q.id == p.id then p2 else q) := by
  simp only [updateProjectService, hfind]
  refine ⟨_, _, rfl, ?_, ?_, ?_, ?_, ?_, ?_, rfl, ?_⟩ <;>
    by_cases he : truthy body.emoji <;> by_cases hn : truthy body.name <;>
      by_cases hd : truthy body.description <;> simp [he, hn, hd]

/-- Witness for C10: a concrete update that renames the project, supplies
no emoji and an empty description changes only the name. -/
theorem update_project_frame_witness :
    ∃ p2 ps2,
      updateProjectService demoPStore 0 1
        { name := some "Relaunch", emoji := none, description := some "" } = .ok (p2, ps2) ∧
      p2.id = demoProject.id ∧ p2.workspace = demoProject.workspace ∧
      p2.createdBy = demoProject.createdBy ∧
      p2.emoji = (if truthy (none : Option String) then
        (none : Option String).getD demoProject.emoji else demoProject.emoji) ∧
      p2.name = (if truthy (some "Relaunch") then
        (some "Relaunch" : Option String).getD demoProject.name else demoProject.name) ∧
      p2.description = (if truthy (some "") then some "" else demoProject.description) ∧
      ps2.tasks = demoPStore.tasks ∧
      ps2.projects = demoPStore.projects.map
        (fun q => if q.id == demoProject.id then p2 else q) :=
  update_project_frame demoPStore 0 1
    { name := some "Relaunch", emoji := none, description := some "" } demoProject (by decide)
